import Mathlib

/-!
# Verification of the rust-gpredict prediction wrapper

Shallow embedding of `src/predict.rs` (and, where the repository's code is
elided behind the FFI boundary or lives in sibling crates, models written
from the specification, each marked `Modelled from the spec:`).

Modelling conventions:
* `f64` arithmetic is modelled exactly over `ℚ`; every concrete computation
  the claims range over (Julian dates for years 1957-2100, day fractions,
  Unix second counts) is exact in double precision, so the rational model
  agrees with the IEEE one there.  `f64::trunc` / `f64::fract` become
  `rtrunc` / `rfract` below.
* C two's-complement casts (`as u64`, `as usize`) are modelled with an
  explicit `% 2^64`; an out-of-bounds slice index (a Rust panic) is
  modelled by returning `none`.
* The external `time` crate only transports instants here (`time::at`,
  `time::Tm`); a `time::Timespec` is kept as the pair (sec, nsec).
-/

namespace Gpredict

/-- `f64::trunc` (round toward zero), exact over `ℚ`. -/
def rtrunc (q : ℚ) : ℚ := if 0 ≤ q then (⌊q⌋ : ℚ) else (⌈q⌉ : ℚ)

/-- `f64::trunc` followed by an integer cast (`as i64` / `as i32`). -/
def rtruncZ (q : ℚ) : ℤ := if 0 ≤ q then ⌊q⌋ else ⌈q⌉

/-- `f64::fract`: the fractional part, with the sign of the argument. -/
def rfract (q : ℚ) : ℚ := q - rtrunc q

/-- The fields of `time::Tm` used by the wrapper (all `i32` in the source,
modelled as `ℤ`; the claims' hypotheses restrict them to their valid
ranges where needed). -/
structure Tm where
  tm_year : ℤ
  tm_mon  : ℤ
  tm_mday : ℤ
  tm_hour : ℤ
  tm_min  : ℤ
  tm_sec  : ℤ
  tm_nsec : ℤ
deriving DecidableEq

/-- `time::Timespec`: seconds and nanoseconds since the Unix epoch. -/
structure Timespec where
  sec  : ℤ
  nsec : ℤ
deriving DecidableEq

/-- `fraction_of_day` from src/predict.rs. -/
def fraction_of_day (h m s : ℤ) : ℚ :=
  ((h : ℚ) + ((m : ℚ) + (s : ℚ) / 60) / 60) / 24

/-- `2^64`, written as a numeral so that kernel reduction works. -/
def two64 : ℤ := 18446744073709551616

/-- `julian_date_of_year` from src/predict.rs (Meeus, Julian date of 0.0 Jan).
`yr as u64 - 1` is modelled with 64-bit wrap-around; for every year the
claims touch (`yr ≥ 1957`) it is simply `yr - 1`.  The literal `30.6001`
is not an exact double, but `trunc (30.6001 * 14) = 428` holds both for the
rational literal and for its double rounding, so the model is exact here. -/
def julian_date_of_year (yr : ℤ) : ℚ :=
  let year : ℚ := (((yr - 1) % two64 : ℤ) : ℚ)
  let i1 : ℚ := rtrunc (year / 100)
  let a  : ℚ := i1
  let i2 : ℚ := rtrunc (a / 4)
  let b  : ℚ := rtrunc (2 - a + i2)
  let i3 : ℚ := rtrunc ((365.25 : ℚ) * year) + rtrunc ((30.6001 : ℚ) * 14)
  i3 + 1720994.5 + b

/-- The month-length table `days` from `day_of_the_year`. -/
def daysTable : List ℤ := [31, 28, 31, 30, 31, 30, 31, 31, 30, 31, 30, 31]

/-- The value of an `i32` two's-complement result (release-mode wrapping
arithmetic / `as i32` semantics). -/
def wrapI32 (v : ℤ) : ℤ := (v + 2147483648) % 4294967296 - 2147483648

/-- `day_of_the_year` from src/predict.rs.  The slice `&days[0 .. mo as usize - 1]`
is modelled by `List.take e` guarded by the slice bound: `mo as usize` is the
64-bit two's-complement image of `mo`, `- 1` wraps around, and an end index
above the table length is a Rust panic, modelled as `none`.  (For `mo = 0` the
debug build already panics on the `usize` underflow; either way the call
aborts, i.e. `none`.)  The `day` accumulator is an `i32`: in release builds
every `+=` wraps modulo 2^32, and successive wraps compose, so the model
wraps the accumulated total once; a debug build panics on the overflowing
`+=` instead, so on inputs where `wrapI32` is not the identity the two
builds diverge (wrapped value vs. abort) and only the release value is
modelled.  Rust's `%` truncates toward zero while Lean's `%` on `ℤ` is
Euclidean, but both agree on the `== 0` tests used here. -/
def day_of_the_year (yr mo dy : ℤ) : Option ℤ :=
  let u : ℕ := ((mo % two64).toNat)
  let e : ℕ := (u + 18446744073709551616 - 1) % 18446744073709551616
  if e ≤ daysTable.length then
    some (wrapI32 ((daysTable.take e).sum + dy +
      (if yr % 4 = 0 ∧ (yr % 100 ≠ 0 ∨ yr % 400 = 0) ∧ 2 < mo then 1 else 0)))
  else none

/-- `julian_timestamp` from src/predict.rs; `none` propagates the
`day_of_the_year` panic on a malformed `Tm`. -/
def julian_timestamp (t : Tm) : Option ℚ :=
  let year := t.tm_year + 1900
  let month := t.tm_mon + 1
  (day_of_the_year year month t.tm_mday).map (fun (doy : ℤ) =>
    julian_date_of_year year + (doy : ℚ) +
      fraction_of_day t.tm_hour t.tm_min t.tm_sec +
      (t.tm_nsec : ℚ) / 1000 / (8.64e10 : ℚ))

/-- `julian_to_unix` from src/predict.rs.  `time::at` (external crate) only
converts the `Timespec` to a broken-down time preserving the instant, so the
result is kept as the `Timespec` handed to it: `unix.trunc() as i64` seconds
and `unix.fract() as i32` nanoseconds. -/
def julian_to_unix (julian : ℚ) : Timespec :=
  let unix := (julian - 2440587.5) * 86400
  ⟨rtruncZ unix, rtruncZ (rfract unix)⟩

/-! ## Helper lemmas about `rtrunc` / `rtruncZ` -/

theorem rtrunc_intCast (k : ℤ) : rtrunc (k : ℚ) = (k : ℚ) := by
  unfold rtrunc
  split
  · rw [Int.floor_intCast]
  · rw [Int.ceil_intCast]

theorem rtrunc_div_natCast (n : ℤ) (hn : 0 ≤ n) (d : ℕ) :
    rtrunc ((n : ℚ) / (d : ℚ)) = ((n / (d : ℤ) : ℤ) : ℚ) := by
  have h0 : (0 : ℚ) ≤ (n : ℚ) / (d : ℚ) :=
    div_nonneg (by exact_mod_cast hn) (by positivity)
  unfold rtrunc
  rw [if_pos h0, Rat.floor_intCast_div_natCast]

theorem rtruncZ_eq_floor (q : ℚ) (h : 0 ≤ q) : rtruncZ q = ⌊q⌋ := by
  unfold rtruncZ
  rw [if_pos h]

theorem rtruncZ_cast_sub_lt (q : ℚ) : |(rtruncZ q : ℚ) - q| < 1 := by
  unfold rtruncZ
  split
  · rw [abs_sub_lt_iff]
    constructor
    · have := Int.sub_one_lt_floor q
      linarith [Int.floor_le q]
    · have := Int.floor_le q
      linarith [Int.sub_one_lt_floor q]
  · rw [abs_sub_lt_iff]
    constructor
    · have := Int.le_ceil q
      linarith [Int.ceil_lt_add_one q]
    · linarith [Int.le_ceil q, Int.ceil_lt_add_one q]

theorem rtruncZ_eq_zero (q : ℚ) (h1 : -1 < q) (h2 : q < 1) : rtruncZ q = 0 := by
  unfold rtruncZ
  split
  · have h3 : (0 : ℤ) ≤ ⌊q⌋ := Int.floor_nonneg.2 (by assumption)
    have h4 : ⌊q⌋ < 1 := Int.floor_lt.2 (by exact_mod_cast h2)
    omega
  · have h0 : q ≤ 0 := le_of_not_le (by assumption)
    have h3 : ⌈q⌉ ≤ 0 := Int.ceil_le.2 (by exact_mod_cast h0)
    have h4 : (-1 : ℤ) < ⌈q⌉ := Int.lt_ceil.2 (by exact_mod_cast h1)
    omega

theorem rtrunc_eq_cast_rtruncZ (q : ℚ) : rtrunc q = (rtruncZ q : ℚ) := by
  by_cases h : 0 ≤ q <;> simp [rtrunc, rtruncZ, h]

theorem rfract_lt_one (q : ℚ) : -1 < rfract q ∧ rfract q < 1 := by
  have hq : rfract q = q - (rtruncZ q : ℚ) := by
    unfold rfract
    rw [rtrunc_eq_cast_rtruncZ]
  have h := rtruncZ_cast_sub_lt q
  rw [abs_sub_lt_iff] at h
  rw [hq]
  constructor <;> linarith [h.1, h.2]

/-- Closed form of `julian_date_of_year` on the years the claims range over:
the Meeus formula reduced to integer (floor) divisions. -/
theorem julian_date_of_year_eq (yr : ℤ) (h1 : 1 ≤ yr) (h2 : yr ≤ 2100) :
    julian_date_of_year yr =
      ((1461 * (yr - 1) / 4 + 428 + 2 - (yr - 1) / 100 + (yr - 1) / 100 / 4 : ℤ) : ℚ)
        + 1720994.5 := by
  have hn : 0 ≤ yr - 1 := by omega
  have hmod : (yr - 1) % two64 = yr - 1 :=
    Int.emod_eq_of_lt hn (by unfold two64; omega)
  unfold julian_date_of_year
  rw [hmod]
  have e100 : rtrunc ((yr - 1 : ℤ) / (100 : ℚ)) = (((yr - 1) / 100 : ℤ) : ℚ) := by
    rw [show (100 : ℚ) = ((100 : ℕ) : ℚ) by norm_num]
    exact rtrunc_div_natCast _ hn 100
  have e4 : rtrunc ((((yr - 1) / 100 : ℤ) : ℚ) / (4 : ℚ)) =
      (((yr - 1) / 100 / 4 : ℤ) : ℚ) := by
    rw [show (4 : ℚ) = ((4 : ℕ) : ℚ) by norm_num]
    exact rtrunc_div_natCast _ (Int.ediv_nonneg hn (by norm_num)) 4
  have e1461 : rtrunc ((365.25 : ℚ) * ((yr - 1 : ℤ) : ℚ)) =
      ((1461 * (yr - 1) / 4 : ℤ) : ℚ) := by
    rw [show (365.25 : ℚ) * ((yr - 1 : ℤ) : ℚ) =
        ((1461 * (yr - 1) : ℤ) : ℚ) / ((4 : ℕ) : ℚ) by push_cast; ring_nf]
    exact rtrunc_div_natCast _ (by positivity) 4
  have e428 : rtrunc ((30.6001 : ℚ) * 14) = 428 := by
    rw [show (30.6001 : ℚ) * 14 = 428.4014 by norm_num]
    unfold rtrunc
    rw [if_pos (by norm_num)]
    norm_num
  dsimp only
  rw [e100, e4, e1461, e428]
  rw [show (2 : ℚ) - (((yr - 1) / 100 : ℤ) : ℚ) + (((yr - 1) / 100 / 4 : ℤ) : ℚ) =
      (((2 - (yr - 1) / 100 + (yr - 1) / 100 / 4 : ℤ) : ℚ)) by push_cast; ring]
  rw [rtrunc_intCast]
  push_cast
  ring

/-! ## Reference calendar arithmetic (the spec's notion of civil time)

These definitions are the standard proleptic-Gregorian day counts; they are
the yardstick the spec's sentences about "civil time" are formalised
against.  `daysToYear` is certified below by `daysToYear_succ` (one year
adds 365 or 366 days according to leapness) and `daysToYear_epoch`. -/

/-- Reference: a year is a leap year iff divisible by 4 and
(not divisible by 100 or divisible by 400). -/
def isLeapYear (y : ℤ) : Prop := 4 ∣ y ∧ (¬ (100 ∣ y) ∨ 400 ∣ y)

instance (y : ℤ) : Decidable (isLeapYear y) := by
  unfold isLeapYear
  exact inferInstance

theorem isLeapYear_iff_emod (y : ℤ) :
    isLeapYear y ↔ (y % 4 = 0 ∧ (y % 100 ≠ 0 ∨ y % 400 = 0)) := by
  unfold isLeapYear
  omega

/-- Reference: the length of month `mo` (1-12) in a non-leap year. -/
def monthLength (mo : ℤ) : ℤ :=
  if mo = 1 then 31 else if mo = 2 then 28 else if mo = 3 then 31
  else if mo = 4 then 30 else if mo = 5 then 31 else if mo = 6 then 30
  else if mo = 7 then 31 else if mo = 8 then 31 else if mo = 9 then 30
  else if mo = 10 then 31 else if mo = 11 then 30 else if mo = 12 then 31
  else 0

/-- Reference: total length of the months strictly before `mo`
(non-leap lengths; the February correction is accounted separately). -/
def monthPrefixDays (mo : ℤ) : ℤ := ∑ k ∈ Finset.Icc (1 : ℤ) (mo - 1), monthLength k

/-- Reference: days from 1970-01-01 to `y`-01-01, by the standard
leap-count formula. -/
def daysToYear (y : ℤ) : ℤ :=
  365 * (y - 1970) + ((y - 1) / 4 - (y - 1) / 100 + (y - 1) / 400) - 477

theorem daysToYear_epoch : daysToYear 1970 = 0 := by decide

theorem daysToYear_succ (y : ℤ) :
    daysToYear (y + 1) = daysToYear y + (if isLeapYear y then 366 else 365) := by
  unfold daysToYear
  by_cases hL : isLeapYear y
  · rw [if_pos hL]
    rw [isLeapYear_iff_emod] at hL
    omega
  · rw [if_neg hL]
    rw [isLeapYear_iff_emod] at hL
    omega

/-- Reference: days from the Unix epoch to the civil date (y, mo, dy). -/
def daysFromCivil (y mo dy : ℤ) : ℤ :=
  daysToYear y + monthPrefixDays mo +
    (if 2 < mo ∧ isLeapYear y then 1 else 0) + dy - 1

/-- Reference: the exact Unix-seconds value of a civil timestamp. -/
def tmUnixSec (t : Tm) : ℚ :=
  86400 * (daysFromCivil (t.tm_year + 1900) (t.tm_mon + 1) t.tm_mday : ℚ) +
    3600 * (t.tm_hour : ℚ) + 60 * (t.tm_min : ℚ) + (t.tm_sec : ℚ) +
    (t.tm_nsec : ℚ) / 1000000000

/-- The instant (in Unix seconds) denoted by a `Timespec`. -/
def timespecSec (ts : Timespec) : ℚ := (ts.sec : ℚ) + (ts.nsec : ℚ) / 1000000000

/-- A well-formed broken-down civil time (the ranges documented for
`time::Tm`). -/
def validTm (t : Tm) : Prop :=
  0 ≤ t.tm_mon ∧ t.tm_mon ≤ 11 ∧
  1 ≤ t.tm_mday ∧
  t.tm_mday ≤ monthLength (t.tm_mon + 1) +
    (if t.tm_mon + 1 = 2 ∧ isLeapYear (t.tm_year + 1900) then 1 else 0) ∧
  0 ≤ t.tm_hour ∧ t.tm_hour ≤ 23 ∧
  0 ≤ t.tm_min ∧ t.tm_min ≤ 59 ∧
  0 ≤ t.tm_sec ∧ t.tm_sec ≤ 59 ∧
  0 ≤ t.tm_nsec ∧ t.tm_nsec < 1000000000

instance (t : Tm) : Decidable (validTm t) := by
  unfold validTm
  exact inferInstance

/-! ## `day_of_the_year` against the reference -/

theorem wrapI32_eq_self (v : ℤ) (h1 : -2147483648 ≤ v) (h2 : v ≤ 2147483647) :
    wrapI32 v = v := by
  unfold wrapI32
  omega

theorem monthLength_bounds (mo : ℤ) (h1 : 1 ≤ mo) (h2 : mo ≤ 12) :
    0 ≤ monthLength mo ∧ monthLength mo ≤ 31 := by
  interval_cases mo <;> exact ⟨by decide, by decide⟩

theorem monthPrefixDays_bounds (mo : ℤ) (h1 : 1 ≤ mo) (h2 : mo ≤ 12) :
    0 ≤ monthPrefixDays mo ∧ monthPrefixDays mo ≤ 334 := by
  interval_cases mo <;> exact ⟨by decide, by decide⟩

/-- For a month index in 1..12 the source's table scan computes the i32
wrap of the reference cumulative month lengths plus the leap-day
correction. -/
theorem day_of_the_year_eq_wrap (yr mo dy : ℤ) (h1 : 1 ≤ mo) (h2 : mo ≤ 12) :
    day_of_the_year yr mo dy =
      some (wrapI32
        (dy + monthPrefixDays mo + (if 2 < mo ∧ isLeapYear yr then 1 else 0))) := by
  have hmod : mo % two64 = mo := Int.emod_eq_of_lt (by omega) (by unfold two64; omega)
  have hcond : (yr % 4 = 0 ∧ (yr % 100 ≠ 0 ∨ yr % 400 = 0) ∧ 2 < mo) ↔
      (2 < mo ∧ isLeapYear yr) := by
    rw [isLeapYear_iff_emod]
    tauto
  have p1 : monthPrefixDays 1 = 0 := by decide
  have p2 : monthPrefixDays 2 = 31 := by decide
  have p3 : monthPrefixDays 3 = 59 := by decide
  have p4 : monthPrefixDays 4 = 90 := by decide
  have p5 : monthPrefixDays 5 = 120 := by decide
  have p6 : monthPrefixDays 6 = 151 := by decide
  have p7 : monthPrefixDays 7 = 181 := by decide
  have p8 : monthPrefixDays 8 = 212 := by decide
  have p9 : monthPrefixDays 9 = 243 := by decide
  have p10 : monthPrefixDays 10 = 273 := by decide
  have p11 : monthPrefixDays 11 = 304 := by decide
  have p12 : monthPrefixDays 12 = 334 := by decide
  unfold day_of_the_year
  rw [hmod]
  interval_cases mo <;>
    simp only [hcond] <;>
    simp [daysTable, p1, p2, p3, p4, p5, p6, p7, p8, p9, p10, p11, p12] <;>
    ring_nf

/-- On days where the i32 accumulator cannot overflow (any real day of
month lies far inside this range) the wrap is the identity and the table
scan equals the reference value. -/
theorem day_of_the_year_eq_ref (yr mo dy : ℤ) (h1 : 1 ≤ mo) (h2 : mo ≤ 12)
    (hd1 : -2147483648 ≤ dy) (hd2 : dy ≤ 2147483312) :
    day_of_the_year yr mo dy =
      some (dy + monthPrefixDays mo + (if 2 < mo ∧ isLeapYear yr then 1 else 0)) := by
  rw [day_of_the_year_eq_wrap yr mo dy h1 h2]
  have hp := monthPrefixDays_bounds mo h1 h2
  have hite : (0 : ℤ) ≤ (if 2 < mo ∧ isLeapYear yr then 1 else 0) ∧
      (if 2 < mo ∧ isLeapYear yr then (1 : ℤ) else 0) ≤ 1 := by
    by_cases hc : 2 < mo ∧ isLeapYear yr <;> simp [hc]
  rw [wrapI32_eq_self _ (by omega) (by omega)]

/-- The integer part of the Meeus year formula agrees with the reference
day count of January 0 (all floor divisions, settled by `omega`). -/
theorem meeus_year_identity (y : ℤ) :
    1461 * (y - 1) / 4 + 428 + 2 - (y - 1) / 100 + (y - 1) / 100 / 4 =
      719592 + daysToYear y := by
  have hb : 1461 * (y - 1) / 4 = 365 * (y - 1) + (y - 1) / 4 := by omega
  have hf : (y - 1) / 100 / 4 = (y - 1) / 400 := by omega
  unfold daysToYear
  omega

/-- `julian_timestamp` in closed form: the Unix-epoch Julian date plus the
reference day count plus the exact fraction of the day. -/
theorem julian_timestamp_eq (t : Tm)
    (hy1 : 1957 ≤ t.tm_year + 1900) (hy2 : t.tm_year + 1900 ≤ 2100)
    (hmo1 : 0 ≤ t.tm_mon) (hmo2 : t.tm_mon ≤ 11)
    (hd1 : -2147483648 ≤ t.tm_mday) (hd2 : t.tm_mday ≤ 2147483312) :
    julian_timestamp t = some (2440587.5 +
      (daysFromCivil (t.tm_year + 1900) (t.tm_mon + 1) t.tm_mday : ℚ) +
      (3600 * (t.tm_hour : ℚ) + 60 * (t.tm_min : ℚ) + (t.tm_sec : ℚ) +
        (t.tm_nsec : ℚ) / 1000000000) / 86400) := by
  unfold julian_timestamp
  dsimp only
  rw [day_of_the_year_eq_ref _ _ _ (by omega) (by omega) hd1 hd2]
  rw [Option.map_some']
  refine congrArg some ?_
  rw [julian_date_of_year_eq _ (by omega) (by omega)]
  have hq : ((1461 * (t.tm_year + 1900 - 1) / 4 + 428 + 2 -
      (t.tm_year + 1900 - 1) / 100 + (t.tm_year + 1900 - 1) / 100 / 4 : ℤ) : ℚ) =
      ((719592 + daysToYear (t.tm_year + 1900) : ℤ) : ℚ) := by
    exact_mod_cast meeus_year_identity _
  rw [hq]
  unfold daysFromCivil fraction_of_day
  push_cast
  ring

/-- C2: `julian_timestamp` maps the civil time 2000-01-01T12:00:00Z
(`tm_year = 100`, `tm_mon = 0`) to exactly 2451545.0 and
1970-01-01T00:00:00Z to exactly 2440587.5. -/
theorem julian_timestamp_anchor_values :
    julian_timestamp ⟨100, 0, 1, 12, 0, 0, 0⟩ = some 2451545 ∧
    julian_timestamp ⟨70, 0, 1, 0, 0, 0, 0⟩ = some (2440587.5 : ℚ) := by
  constructor
  · rw [julian_timestamp_eq _ (by norm_num) (by norm_num) (by norm_num) (by norm_num)
      (by norm_num) (by norm_num)]
    have h : daysFromCivil 2000 1 1 = 10957 := by decide
    norm_num [h]
  · rw [julian_timestamp_eq _ (by norm_num) (by norm_num) (by norm_num) (by norm_num)
      (by norm_num) (by norm_num)]
    have h : daysFromCivil 1970 1 1 = 0 := by decide
    norm_num [h]

/-- C1: for every valid civil timestamp in 1957-2100, converting with
`julian_timestamp` and back with `julian_to_unix` yields an instant within
one second of the original. -/
theorem julian_roundtrip_within_one_second (t : Tm)
    (hy1 : 1957 ≤ t.tm_year + 1900) (hy2 : t.tm_year + 1900 ≤ 2100)
    (hv : validTm t) :
    ∃ jd, julian_timestamp t = some jd ∧
      |timespecSec (julian_to_unix jd) - tmUnixSec t| ≤ 1 := by
  obtain ⟨hmo1, hmo2, hd1, hd2, _, _, _, _, _, _, _, _⟩ := hv
  have hml := monthLength_bounds (t.tm_mon + 1) (by omega) (by omega)
  have hml2 : (if t.tm_mon + 1 = 2 ∧ isLeapYear (t.tm_year + 1900)
      then (1 : ℤ) else 0) ≤ 1 := by
    by_cases hc : t.tm_mon + 1 = 2 ∧ isLeapYear (t.tm_year + 1900) <;> simp [hc]
  refine ⟨_, julian_timestamp_eq t hy1 hy2 hmo1 hmo2 (by omega) (by omega), ?_⟩
  set D : ℤ := daysFromCivil (t.tm_year + 1900) (t.tm_mon + 1) t.tm_mday with hD
  set S : ℚ := 3600 * (t.tm_hour : ℚ) + 60 * (t.tm_min : ℚ) + (t.tm_sec : ℚ) +
      (t.tm_nsec : ℚ) / 1000000000 with hS
  have hunix : (2440587.5 + (D : ℚ) + S / 86400 - 2440587.5) * 86400 =
      86400 * (D : ℚ) + S := by ring
  unfold julian_to_unix timespecSec
  dsimp only
  rw [hunix]
  have hfr := rfract_lt_one (86400 * (D : ℚ) + S)
  have hns : rtruncZ (rfract (86400 * (D : ℚ) + S)) = 0 :=
    rtruncZ_eq_zero _ hfr.1 hfr.2
  rw [hns]
  have htm : tmUnixSec t = 86400 * (D : ℚ) + S := by
    unfold tmUnixSec
    rw [hD, hS]
    ring
  rw [htm]
  have habs := rtruncZ_cast_sub_lt (86400 * (D : ℚ) + S)
  norm_num
  linarith [abs_le.1 habs.le]

/-- Witness for C1 at the concrete timestamp 2000-01-01T12:00:00Z. -/
theorem julian_roundtrip_within_one_second_witness :
    (1957 ≤ (100 : ℤ) + 1900) ∧ ((100 : ℤ) + 1900 ≤ 2100) ∧
    validTm ⟨100, 0, 1, 12, 0, 0, 0⟩ ∧
    (∃ jd, julian_timestamp ⟨100, 0, 1, 12, 0, 0, 0⟩ = some jd ∧
      |timespecSec (julian_to_unix jd) - tmUnixSec ⟨100, 0, 1, 12, 0, 0, 0⟩| ≤ 1) :=
  ⟨by norm_num, by norm_num, by decide,
    julian_roundtrip_within_one_second ⟨100, 0, 1, 12, 0, 0, 0⟩
      (by norm_num) (by norm_num) (by decide)⟩

/-- Counterexample to C6 as stated: at yr = 2000, mo = 3 and the day
dy = 2147483647 (i32::MAX) the source's i32 `day` accumulator overflows —
a release build wraps the total 2147483707 to -2147483589 (a debug build
panics) — so the result is not dy plus the preceding month lengths plus
the leap day. -/
theorem day_of_the_year_spec_counterexample :
    (1 ≤ (3 : ℤ)) ∧ ((3 : ℤ) ≤ 12) ∧
    day_of_the_year 2000 3 2147483647 = some (-2147483589) ∧
    day_of_the_year 2000 3 2147483647 ≠
      some (2147483647 + monthPrefixDays 3 +
        (if 2 < (3 : ℤ) ∧ ((4 : ℤ) ∣ 2000 ∧ (¬ ((100 : ℤ) ∣ 2000) ∨ (400 : ℤ) ∣ 2000))
          then 1 else 0)) :=
  ⟨by norm_num, by norm_num, by decide, by decide⟩

/-- C6 (amended): for months 1..12, whenever the total fits in the i32
accumulator — in particular for every real day of month —
`day_of_the_year` equals the day of the month plus the summed lengths of
the preceding months, plus 1 exactly when the month is after February and
the year is divisible by 4 and (not divisible by 100 or divisible by 400);
outside that range the i32 accumulator wraps (release) or panics (debug). -/
theorem day_of_the_year_spec (yr mo dy : ℤ) (h1 : 1 ≤ mo) (h2 : mo ≤ 12)
    (hfit1 : -2147483648 ≤ dy + monthPrefixDays mo +
      (if 2 < mo ∧ ((4 : ℤ) ∣ yr ∧ (¬ ((100 : ℤ) ∣ yr) ∨ (400 : ℤ) ∣ yr))
        then 1 else 0))
    (hfit2 : dy + monthPrefixDays mo +
      (if 2 < mo ∧ ((4 : ℤ) ∣ yr ∧ (¬ ((100 : ℤ) ∣ yr) ∨ (400 : ℤ) ∣ yr))
        then 1 else 0) ≤ 2147483647) :
    day_of_the_year yr mo dy =
      some (dy + monthPrefixDays mo +
        (if 2 < mo ∧ ((4 : ℤ) ∣ yr ∧ (¬ ((100 : ℤ) ∣ yr) ∨ (400 : ℤ) ∣ yr))
          then 1 else 0)) := by
  have hL : (if 2 < mo ∧ isLeapYear yr then (1 : ℤ) else 0) =
      (if 2 < mo ∧ ((4 : ℤ) ∣ yr ∧ (¬ ((100 : ℤ) ∣ yr) ∨ (400 : ℤ) ∣ yr))
        then 1 else 0) := by
    norm_num [isLeapYear]
  rw [day_of_the_year_eq_wrap yr mo dy h1 h2, hL, wrapI32_eq_self _ hfit1 hfit2]

/-- Witness for C6 at 2000-03-01 (leap year, month past February, total
well inside the i32 range). -/
theorem day_of_the_year_spec_witness :
    (1 ≤ (3 : ℤ)) ∧ ((3 : ℤ) ≤ 12) ∧
    (-2147483648 ≤ 1 + monthPrefixDays 3 +
      (if 2 < (3 : ℤ) ∧ ((4 : ℤ) ∣ 2000 ∧ (¬ ((100 : ℤ) ∣ 2000) ∨ (400 : ℤ) ∣ 2000))
        then 1 else 0)) ∧
    (1 + monthPrefixDays 3 +
      (if 2 < (3 : ℤ) ∧ ((4 : ℤ) ∣ 2000 ∧ (¬ ((100 : ℤ) ∣ 2000) ∨ (400 : ℤ) ∣ 2000))
        then 1 else 0) ≤ 2147483647) ∧
    day_of_the_year 2000 3 1 =
      some (1 + monthPrefixDays 3 +
        (if 2 < (3 : ℤ) ∧ ((4 : ℤ) ∣ 2000 ∧ (¬ ((100 : ℤ) ∣ 2000) ∨ (400 : ℤ) ∣ 2000))
          then 1 else 0)) :=
  ⟨by norm_num, by norm_num, by decide, by decide,
    day_of_the_year_spec 2000 3 1 (by norm_num) (by norm_num) (by decide) (by decide)⟩

/-- C9: for a Julian date at or after the Unix epoch, `julian_to_unix`
returns the floor of the exact Unix-seconds value with a zero nanosecond
field (the sub-second fraction, a value in [0,1), is truncated to the
integer 0). -/
theorem julian_to_unix_floor_truncation (jd : ℚ) (h : 2440587.5 ≤ jd) :
    julian_to_unix jd = ⟨⌊(jd - 2440587.5) * 86400⌋, 0⟩ := by
  unfold julian_to_unix
  dsimp only
  have h0 : (0 : ℚ) ≤ (jd - 2440587.5) * 86400 :=
    mul_nonneg (by linarith) (by norm_num)
  have hfr := rfract_lt_one ((jd - 2440587.5) * 86400)
  rw [rtruncZ_eq_floor _ h0, rtruncZ_eq_zero _ hfr.1 hfr.2]

/-- Witness for C9 at the Julian date 2440588 (half a day past the epoch). -/
theorem julian_to_unix_floor_truncation_witness :
    (2440587.5 ≤ (2440588 : ℚ)) ∧
    julian_to_unix 2440588 = ⟨⌊((2440588 : ℚ) - 2440587.5) * 86400⌋, 0⟩ :=
  ⟨by norm_num, julian_to_unix_floor_truncation 2440588 (by norm_num)⟩

/-- C10: for an `i32` month argument, `day_of_the_year` avoids the
out-of-bounds month-table slice (a panic) exactly when `1 ≤ mo ≤ 13`, and
`julian_timestamp` always passes `tm_mon + 1 ∈ 1..12` for a well-formed
`time::Tm`, so it never hits that panic. -/
theorem day_of_the_year_panic_free :
    (∀ yr mo dy : ℤ, -2147483648 ≤ mo → mo < 2147483648 →
      ((day_of_the_year yr mo dy).isSome ↔ (1 ≤ mo ∧ mo ≤ 13))) ∧
    (∀ t : Tm, 0 ≤ t.tm_mon → t.tm_mon ≤ 11 → (julian_timestamp t).isSome) := by
  constructor
  · intro yr mo dy hlo hhi
    have hlen : daysTable.length = 12 := rfl
    unfold day_of_the_year two64
    rw [hlen]
    by_cases hE : ((mo % 18446744073709551616).toNat + 18446744073709551616 - 1) %
        18446744073709551616 ≤ 12
    · rw [if_pos hE]
      simp
      omega
    · rw [if_neg hE]
      simp
      omega
  · intro t h1 h2
    unfold julian_timestamp
    dsimp only
    rw [day_of_the_year_eq_wrap _ _ _ (by omega) (by omega)]
    rfl

/-- Witness for C10: month 13 still indexes within the table, and
`julian_timestamp` succeeds at 2000-01-01T12:00:00Z. -/
theorem day_of_the_year_panic_free_witness :
    (-2147483648 ≤ (13 : ℤ)) ∧ ((13 : ℤ) < 2147483648) ∧
    ((day_of_the_year 2000 13 1).isSome ↔ (1 ≤ (13 : ℤ) ∧ (13 : ℤ) ≤ 13)) ∧
    (0 ≤ (0 : ℤ)) ∧ ((0 : ℤ) ≤ 11) ∧
    (julian_timestamp ⟨100, 0, 1, 12, 0, 0, 0⟩).isSome :=
  ⟨by norm_num, by norm_num,
    day_of_the_year_panic_free.1 2000 13 1 (by norm_num) (by norm_num),
    by norm_num, by norm_num,
    day_of_the_year_panic_free.2 ⟨100, 0, 1, 12, 0, 0, 0⟩ (by norm_num) (by norm_num)⟩

/-! ## TleModel (spec-modelled): checksum validation

The `tle` module that implements TLE parsing is a sibling module of the
wrapper and is not among the sources here; the validation it performs is
modelled from the specification (§4.2, §8). -/

/-- Modelled from the spec: the per-character value of the TLE checksum —
a digit character counts its value, a minus sign counts 1, every other
character counts 0. -/
def tleCharValue (c : Char) : ℕ :=
  if c.isDigit then c.toNat - 48 else if c = '-' then 1 else 0

/-- Modelled from the spec: the modulo-10 sum over the line without its
final (check) character. -/
def tleChecksum (line : String) : ℕ :=
  (line.data.dropLast.map tleCharValue).sum % 10

/-- Modelled from the spec: the line's last character must be the digit of
the modulo-10 checksum. -/
def tleChecksumOk (line : String) : Bool :=
  (line.data.getLastD ' ').toNat == 48 + tleChecksum line

/-- Modelled from the spec: an element line is valid when it is 69
characters wide (after stripping line endings) and passes the checksum. -/
def tleLineValid (line : String) : Bool :=
  (line.data.length == 69) && tleChecksumOk line

/-- Modelled from the spec: `TleModel.parse` rejects the pair — creating no
session — unless both element lines validate. -/
def tleParse (l1 l2 : String) : Option Unit :=
  if tleLineValid l1 && tleLineValid l2 then some () else none

/-- Line 1 of the canonical GRIFEX element set from the spec. -/
def grifexLine1 : String :=
  "1 40379U 15003D   15243.42702278  .00003367  00000-0  17130-3 0  9993"

/-- Line 2 of the canonical GRIFEX element set from the spec. -/
def grifexLine2 : String :=
  "2 40379  99.1124 290.6779 0157088   8.9691 351.4280 15.07659299 31889"

/-- C3: TLE validation rejects any pair one of whose element lines has a
last character different from the modulo-10 sum of its digit characters
('-' counting 1, others 0) — no session is created — and accepts the
canonical GRIFEX pair. -/
theorem tle_checksum_validation :
    (∀ l1 l2 : String,
      (l1.data.getLastD ' ').toNat ≠ 48 + tleChecksum l1 → tleParse l1 l2 = none) ∧
    (∀ l1 l2 : String,
      (l2.data.getLastD ' ').toNat ≠ 48 + tleChecksum l2 → tleParse l1 l2 = none) ∧
    (tleParse grifexLine1 grifexLine2).isSome := by
  refine ⟨?_, ?_, ?_⟩
  · intro l1 l2 h
    simp [tleParse, tleLineValid, tleChecksumOk] at h ⊢
    exact fun _ hc => absurd hc h
  · intro l1 l2 h
    simp [tleParse, tleLineValid, tleChecksumOk] at h ⊢
    exact fun _ _ _ => h
  · decide

/-- A copy of GRIFEX line 1 with its check digit corrupted from 3 to 4. -/
def grifexLine1Bad : String :=
  "1 40379U 15003D   15243.42702278  .00003367  00000-0  17130-3 0  9994"

/-- Witness for C3: the corrupted line is rejected and creates no session. -/
theorem tle_checksum_validation_witness :
    ((grifexLine1Bad.data.getLastD ' ').toNat ≠ 48 + tleChecksum grifexLine1Bad) ∧
    tleParse grifexLine1Bad grifexLine2 = none :=
  ⟨by decide, tle_checksum_validation.1 grifexLine1Bad grifexLine2 (by decide)⟩

/-! ## The prediction session (`Predict`) and its FFI boundary -/

/-- The fields of `ffipredict::sat_t` that `Predict::update` reads after
`predict_calc` (all `f64` in the source except the orbit counter). -/
structure SatT where
  az : ℚ
  el : ℚ
  range : ℚ
  range_rate : ℚ
  ssplat : ℚ
  ssplon : ℚ
  alt : ℚ
  velo : ℚ
  orbit : ℤ

/-- The observer fields of `ffipredict::qth_t`. -/
structure QthT where
  lat : ℚ
  lon : ℚ
  alt : ℤ

/-- The public snapshot `Sat` from src/predict.rs. -/
structure Sat where
  aos : Option Timespec
  los : Option Timespec
  az_deg : ℚ
  el_deg : ℚ
  range_km : ℚ
  range_rate_km_sec : ℚ
  lat_deg : ℚ
  lon_deg : ℚ
  alt_km : ℚ
  vel_km_s : ℚ
  orbit_nr : ℤ

/-- `Predict` from src/predict.rs: the public snapshot plus the private
propagator/observer state handed to the native library. -/
structure Predict where
  sat : Sat
  p_sat : SatT
  p_qth : QthT

/-- Modelled from the spec: the native propagation library behind the FFI
boundary (`ffipredict`, i.e. OrbitPropagator + ObserverGeometry +
PassFinder), of which the wrapper only sees the four entry points used in
`update`; each search/calc call takes and returns the mutable `sat_t`
state.  The spec's propagation step can fail (`PropagationError`), but the
C interface exposes no error value, so such a failure is recorded here only
as the flag `propagation_failed`, which the wrapper has no way to
observe. -/
structure Ffi where
  get_current_daynum : ℚ
  find_aos : SatT → QthT → ℚ → ℚ → ℚ × SatT
  find_los : SatT → QthT → ℚ → ℚ → ℚ × SatT
  predict_calc : SatT → QthT → ℚ → SatT
  propagation_failed : Bool

/-- The timestamp resolution at the top of `Predict::update`: an explicit
`Tm` goes through `julian_timestamp` (whose month-table panic is the outer
`none`), absence means "now" via `get_current_daynum`. -/
def resolveTime (ffi : Ffi) (timeoption : Option Tm) : Option ℚ :=
  match timeoption with
  | some t => julian_timestamp t
  | none => some ffi.get_current_daynum

/-- `Predict::update` from src/predict.rs: resolve the time, run the AOS
and LOS searches (a result of 0.0 becomes `None`, anything else is
converted with `julian_to_unix`), run `predict_calc`, then assign every
snapshot field from the freshly computed values (`orbit as u64` is the
64-bit wrap of the orbit counter). -/
def Predict.update (ffi : Ffi) (p : Predict) (timeoption : Option Tm) :
    Option Predict :=
  (resolveTime ffi timeoption).map (fun juliantime =>
    let aosRes := ffi.find_aos p.p_sat p.p_qth juliantime 1
    let aos : Option Timespec :=
      if aosRes.1 = 0 then none else some (julian_to_unix aosRes.1)
    let losRes := ffi.find_los aosRes.2 p.p_qth juliantime 1
    let los : Option Timespec :=
      if losRes.1 = 0 then none else some (julian_to_unix losRes.1)
    let s := ffi.predict_calc losRes.2 p.p_qth juliantime
    { sat :=
        { aos := aos
          los := los
          az_deg := s.az
          el_deg := s.el
          range_km := s.range
          range_rate_km_sec := s.range_rate
          lat_deg := s.ssplat
          lon_deg := s.ssplon
          alt_km := s.alt
          vel_km_s := s.velo
          orbit_nr := s.orbit % two64 }
      p_sat := s
      p_qth := p.p_qth })

/-- The snapshot value a successful `update` stores: a function of the
pre-call propagator state, the observer and the resolved time only — the
previous snapshot does not occur in it. -/
def freshSnapshot (ffi : Ffi) (ps : SatT) (q : QthT) (juliantime : ℚ) : Sat :=
  let aosRes := ffi.find_aos ps q juliantime 1
  let losRes := ffi.find_los aosRes.2 q juliantime 1
  let s := ffi.predict_calc losRes.2 q juliantime
  { aos := if aosRes.1 = 0 then none else some (julian_to_unix aosRes.1)
    los := if losRes.1 = 0 then none else some (julian_to_unix losRes.1)
    az_deg := s.az
    el_deg := s.el
    range_km := s.range
    range_rate_km_sec := s.range_rate
    lat_deg := s.ssplat
    lon_deg := s.ssplon
    alt_km := s.alt
    vel_km_s := s.velo
    orbit_nr := s.orbit % two64 }

/-- A successful `update` yields exactly the fresh snapshot and the mutated
propagator state. -/
theorem update_sat_eq (ffi : Ffi) (p : Predict) (topt : Option Tm) (jt : ℚ)
    (h : resolveTime ffi topt = some jt) :
    Predict.update ffi p topt = some
      { sat := freshSnapshot ffi p.p_sat p.p_qth jt
        p_sat := ffi.predict_calc
          (ffi.find_los (ffi.find_aos p.p_sat p.p_qth jt 1).2 p.p_qth jt 1).2
          p.p_qth jt
        p_qth := p.p_qth } := by
  unfold Predict.update freshSnapshot
  rw [h, Option.map_some']

/-- A concrete session state whose snapshot fields are all zero / absent. -/
def samplePredict : Predict :=
  { sat := ⟨none, none, 0, 0, 0, 0, 0, 0, 0, 0, 0⟩
    p_sat := ⟨0, 0, 0, 0, 0, 0, 0, 0, 0⟩
    p_qth := ⟨0, 0, 0⟩ }

/-- A concrete FFI oracle in which the spec-level propagation failed while
the pass searches find crossings and the geometry step writes azimuth 7. -/
def sampleFfiFailed : Ffi :=
  { get_current_daynum := 2451545
    find_aos := fun s _ _ _ => (2451546, s)
    find_los := fun s _ _ _ => (2451547, s)
    predict_calc := fun s _ _ => { s with az := 7 }
    propagation_failed := true }

/-- A concrete FFI oracle whose AOS search finds no crossing (returns 0.0)
while the LOS search finds one. -/
def sampleFfiNoAos : Ffi :=
  { get_current_daynum := 2451545
    find_aos := fun s _ _ _ => (0, s)
    find_los := fun s _ _ _ => (2451547, s)
    predict_calc := fun s _ _ => s
    propagation_failed := false }

/-- Counterexample to C4 as stated: `update` does not return a
`Result<(), PropagationError>` — with the native propagation marked failed
it still replaces the snapshot (azimuth 0 becomes 7) and returns an
ordinary updated state instead of surfacing an error and leaving the
snapshot untouched. -/
theorem update_error_contract_counterexample :
    sampleFfiFailed.propagation_failed = true ∧
    (Predict.update sampleFfiFailed samplePredict none).map
      (fun r => r.sat.az_deg) = some 7 ∧
    samplePredict.sat.az_deg = 0 ∧ (7 : ℚ) ≠ 0 := by
  refine ⟨rfl, ?_, rfl, by norm_num⟩
  rw [update_sat_eq sampleFfiFailed samplePredict none
    sampleFfiFailed.get_current_daynum rfl]
  rfl

/-- C4 (amended): `update` has no error channel: its behaviour is
identical whether or not the native propagation failed, and a call always
returns an ordinary state whose snapshot is wholly recomputed — never an
error and never the preserved previous snapshot. -/
theorem update_has_no_error_channel (ffi : Ffi) (p : Predict) (b : Bool)
    (topt : Option Tm) :
    Predict.update { ffi with propagation_failed := b } p topt =
      Predict.update ffi p topt ∧
    ∃ r, Predict.update ffi p none = some r ∧
      r.sat = freshSnapshot ffi p.p_sat p.p_qth ffi.get_current_daynum :=
  ⟨rfl, ⟨_, update_sat_eq ffi p none ffi.get_current_daynum rfl, rfl⟩⟩

/-- The raw Julian value the AOS search returns inside `update`. -/
def aosSearchResult (ffi : Ffi) (p : Predict) (jt : ℚ) : ℚ :=
  (ffi.find_aos p.p_sat p.p_qth jt 1).1

/-- The raw Julian value the LOS search returns inside `update` (the state
already mutated by the AOS search is passed on, as in the source). -/
def losSearchResult (ffi : Ffi) (p : Predict) (jt : ℚ) : ℚ :=
  (ffi.find_los (ffi.find_aos p.p_sat p.p_qth jt 1).2 p.p_qth jt 1).1

/-- C5: after a successful `update`, the snapshot's `aos` (resp. `los`)
field is `None` exactly when the corresponding search returned the Julian
value 0.0 — the "no crossing within the horizon" outcome — and this is an
ordinary `some` result of `update`, not an error. -/
theorem snapshot_aos_none_iff_search_zero (ffi : Ffi) (p : Predict)
    (topt : Option Tm) (jt : ℚ) (r : Predict)
    (hjt : resolveTime ffi topt = some jt)
    (hr : Predict.update ffi p topt = some r) :
    (r.sat.aos = none ↔ aosSearchResult ffi p jt = 0) ∧
    (r.sat.los = none ↔ losSearchResult ffi p jt = 0) := by
  rw [update_sat_eq ffi p topt jt hjt] at hr
  have hx := Option.some.inj hr
  rw [← hx]
  unfold freshSnapshot aosSearchResult losSearchResult
  dsimp only
  constructor
  · by_cases hc : (ffi.find_aos p.p_sat p.p_qth jt 1).1 = 0 <;> simp [hc]
  · by_cases hc :
      (ffi.find_los (ffi.find_aos p.p_sat p.p_qth jt 1).2 p.p_qth jt 1).1 = 0 <;>
      simp [hc]

/-- Witness for C5 with an oracle whose AOS search reports no crossing. -/
theorem snapshot_aos_none_iff_search_zero_witness :
    resolveTime sampleFfiNoAos none = some (2451545 : ℚ) ∧
    ∃ r, Predict.update sampleFfiNoAos samplePredict none = some r ∧
      ((r.sat.aos = none ↔ aosSearchResult sampleFfiNoAos samplePredict 2451545 = 0) ∧
       (r.sat.los = none ↔ losSearchResult sampleFfiNoAos samplePredict 2451545 = 0)) := by
  refine ⟨rfl, ?_⟩
  obtain ⟨r, hr⟩ : ∃ r, Predict.update sampleFfiNoAos samplePredict none = some r :=
    ⟨_, update_sat_eq sampleFfiNoAos samplePredict none 2451545 rfl⟩
  exact ⟨r, hr,
    snapshot_aos_none_iff_search_zero sampleFfiNoAos samplePredict none 2451545 r rfl hr⟩

/-- C8: every `update` call overwrites every snapshot field with freshly
computed values, and the new snapshot is independent of the previous one —
no field of the old snapshot survives, no history is retained. -/
theorem update_overwrites_snapshot (ffi : Ffi) (p : Predict)
    (topt : Option Tm) (jt : ℚ) (hjt : resolveTime ffi topt = some jt) :
    (∀ r, Predict.update ffi p topt = some r →
      r.sat = freshSnapshot ffi p.p_sat p.p_qth jt) ∧
    (∀ s₀ : Sat, (Predict.update ffi { p with sat := s₀ } topt).map Predict.sat =
      (Predict.update ffi p topt).map Predict.sat) := by
  constructor
  · intro r hr
    rw [update_sat_eq ffi p topt jt hjt] at hr
    rw [← Option.some.inj hr]
  · intro s₀
    rw [update_sat_eq ffi p topt jt hjt,
      update_sat_eq ffi { p with sat := s₀ } topt jt hjt]

/-- Witness for C8 at a concrete oracle and state. -/
theorem update_overwrites_snapshot_witness :
    resolveTime sampleFfiFailed none = some (2451545 : ℚ) ∧
    ((∀ r, Predict.update sampleFfiFailed samplePredict none = some r →
        r.sat = freshSnapshot sampleFfiFailed samplePredict.p_sat
          samplePredict.p_qth 2451545) ∧
     (∀ s₀ : Sat,
        (Predict.update sampleFfiFailed { samplePredict with sat := s₀ } none).map
          Predict.sat =
        (Predict.update sampleFfiFailed samplePredict none).map Predict.sat)) :=
  ⟨rfl, update_overwrites_snapshot sampleFfiFailed samplePredict none 2451545 rfl⟩

/-! ## ObserverGeometry (spec-modelled): angle normalization

The topocentric transform itself runs inside the native library; per the
spec (§4.4) its elevation is the arcsine of the vertical line-of-sight
component in the observer's horizon frame and "all angle outputs are
normalized to their documented ranges (azimuth 0-360°, elevation
−90-90°)". -/

/-- Modelled from the spec: the elevation (degrees) the geometry step
reports — the arcsine of the normalized vertical component of the
line-of-sight vector. -/
noncomputable def toTopocentricEl (u : ℝ) : ℝ := Real.arcsin u * 180 / Real.pi

/-- Modelled from the spec: the azimuth (degrees) the geometry step
reports — the raw angle reduced modulo 360 into [0, 360). -/
noncomputable def toTopocentricAz (x : ℝ) : ℝ := x - 360 * ⌊x / 360⌋

/-- Modelled from the spec: an FFI oracle whose geometry step produces its
angle outputs through the spec's ObserverGeometry normalization. -/
def GeometryNormalized (ffi : Ffi) : Prop :=
  ∀ s q jt, (∃ u, ((ffi.predict_calc s q jt).el : ℝ) = toTopocentricEl u) ∧
            (∃ x, ((ffi.predict_calc s q jt).az : ℝ) = toTopocentricAz x)

theorem toTopocentricEl_mem (u : ℝ) :
    (-90 : ℝ) ≤ toTopocentricEl u ∧ toTopocentricEl u ≤ 90 := by
  have hpi := Real.pi_pos
  have h1 := Real.neg_pi_div_two_le_arcsin u
  have h2 := Real.arcsin_le_pi_div_two u
  unfold toTopocentricEl
  constructor
  · rw [le_div_iff₀ hpi]
    nlinarith
  · rw [div_le_iff₀ hpi]
    nlinarith

theorem toTopocentricAz_mem (x : ℝ) :
    (0 : ℝ) ≤ toTopocentricAz x ∧ toTopocentricAz x < 360 := by
  have heq : toTopocentricAz x = 360 * Int.fract (x / 360) := by
    unfold toTopocentricAz Int.fract
    ring
  rw [heq]
  constructor
  · have := Int.fract_nonneg (x / 360)
    linarith
  · have := Int.fract_lt_one (x / 360)
    linarith

/-- C7: when the geometry step normalizes its angles as the spec
documents, the elevation `update` stores lies in [-90, 90] degrees and the
azimuth in [0, 360) degrees. -/
theorem snapshot_angles_in_range (ffi : Ffi) (hgeo : GeometryNormalized ffi)
    (p : Predict) (topt : Option Tm) (r : Predict)
    (hr : Predict.update ffi p topt = some r) :
    ((-90 : ℝ) ≤ (r.sat.el_deg : ℝ) ∧ (r.sat.el_deg : ℝ) ≤ 90) ∧
    ((0 : ℝ) ≤ (r.sat.az_deg : ℝ) ∧ (r.sat.az_deg : ℝ) < 360) := by
  unfold Predict.update at hr
  cases hres : resolveTime ffi topt with
  | none =>
      rw [hres] at hr
      exact absurd hr (by simp)
  | some jt =>
      rw [hres, Option.map_some'] at hr
      have hx := Option.some.inj hr
      rw [← hx]
      dsimp only
      obtain ⟨⟨u, hu⟩, ⟨x, hxaz⟩⟩ :=
        hgeo (ffi.find_los (ffi.find_aos p.p_sat p.p_qth jt 1).2 p.p_qth jt 1).2
          p.p_qth jt
      constructor
      · rw [hu]
        exact toTopocentricEl_mem u
      · rw [hxaz]
        exact toTopocentricAz_mem x

/-- A concrete FFI oracle whose geometry step emits spec-normalized
angles (both zero). -/
noncomputable def sampleFfiGeom : Ffi :=
  { get_current_daynum := 2451545
    find_aos := fun s _ _ _ => (0, s)
    find_los := fun s _ _ _ => (0, s)
    predict_calc := fun s _ _ => { s with el := 0, az := 0 }
    propagation_failed := false }

theorem sampleFfiGeom_normalized : GeometryNormalized sampleFfiGeom := by
  intro s q jt
  constructor
  · exact ⟨0, by simp [sampleFfiGeom, toTopocentricEl, Real.arcsin_zero]⟩
  · exact ⟨0, by simp [sampleFfiGeom, toTopocentricAz]⟩

/-- Witness for C7 at a concrete normalized oracle and state. -/
theorem snapshot_angles_in_range_witness :
    GeometryNormalized sampleFfiGeom ∧
    ∃ r, Predict.update sampleFfiGeom samplePredict none = some r ∧
      (((-90 : ℝ) ≤ (r.sat.el_deg : ℝ) ∧ (r.sat.el_deg : ℝ) ≤ 90) ∧
       ((0 : ℝ) ≤ (r.sat.az_deg : ℝ) ∧ (r.sat.az_deg : ℝ) < 360)) := by
  refine ⟨sampleFfiGeom_normalized, ?_⟩
  obtain ⟨r, hr⟩ : ∃ r, Predict.update sampleFfiGeom samplePredict none = some r :=
    ⟨_, update_sat_eq sampleFfiGeom samplePredict none
      sampleFfiGeom.get_current_daynum rfl⟩
  exact ⟨r, hr, snapshot_angles_in_range sampleFfiGeom sampleFfiGeom_normalized
    samplePredict none r hr⟩

end Gpredict
